import Mathlib

/-!
Verification of the `VAEArithKeras` class of `src/scgen/models/_vae_keras.py`.

The embedding models matrices as lists of rows over `ℚ`.  The learned dense
layers of the encoder are opaque learned functions, so the two encoder heads
(the forward pass to the mean and to the log-variance, in evaluation mode)
are parameters `mu_f, lv_f : Vec → Vec` of the model state.  The
transcendental `K.exp` is likewise a function parameter `e : ℚ → ℚ`; theorems
that need a property of it (such as `e 0 = 1`) take that property as a
hypothesis.  The random draws of `K.random_normal` and `numpy.random.choice`
are passed in explicitly, which makes every definition a pure function of its
inputs.
-/

/-- Row vector of rationals, standing for a 1-D numpy array. -/
abbrev Vec : Type := List ℚ

/-- Matrix as a list of rows, standing for a 2-D numpy array. -/
abbrev Mat : Type := List Vec

/-- Elementwise combination of two matrices (numpy broadcasting of two
arrays of equal shape). -/
def matZip (f : ℚ → ℚ → ℚ) (a b : Mat) : Mat :=
  List.zipWith (List.zipWith f) a b

/-- Elementwise sum of two matrices. -/
def matAdd (a b : Mat) : Mat := matZip (fun x y => x + y) a b

/-- Scalar multiple of a matrix. -/
def matSMul (c : ℚ) (m : Mat) : Mat :=
  m.map (fun r => r.map (fun q => c * q))

/-- Column-wise sum of a matrix (numpy `sum(axis=0)` over rows). -/
def colSum : Mat → Vec
  | [] => []
  | [r] => r
  | r :: rs => List.zipWith (fun a b => a + b) r (colSum rs)

/-- Column-wise mean of a matrix, numpy `mean(axis=0)` of a 2-D array. -/
def colMean (m : Mat) : Vec :=
  (colSum m).map (fun q => q / (m.length : ℚ))

/-- Python-level runtime errors surfaced by the class. -/
inductive PyErr where
  | exception (msg : String)
  | attributeError (attr : String)
  | indexError (msg : String)
  | valueError (msg : String)
  deriving DecidableEq

/-- A numpy-level value as it flows through the class: a scalar, a 1-D
array, a 2-D array, or the plain python list of three 2-D arrays that
`keras.Model.predict` returns for the three-output encoder model. -/
inductive NpVal where
  | scalar (x : ℚ)
  | vec (v : Vec)
  | mat (m : Mat)
  | triple (a b c : Mat)
  deriving DecidableEq

/-- Semantics of `numpy.average(latent, axis=0)` for each shape of value the
class ever passes to it: a 2-D array is averaged across its rows; a python
list of three equally-shaped 2-D arrays is first stacked into a 3-D array,
so the average is the elementwise mean of the three arrays.  (A scalar input
would raise in numpy and never occurs in this program.) -/
def npAverageAxis0 : NpVal → NpVal
  | NpVal.scalar x => NpVal.scalar x
  | NpVal.vec v => NpVal.scalar (v.sum / (v.length : ℚ))
  | NpVal.mat m => NpVal.vec (colMean m)
  | NpVal.triple a b c => NpVal.mat (matSMul (1 / 3) (matAdd a (matAdd b c)))

/-- Size of the result of broadcasting two numpy axis sizes: equal sizes
combine, a size of 1 stretches to the other, and anything else is a
broadcast failure. -/
def bcastDim (a b : ℕ) : Option ℕ :=
  if a = b then some a else if a = 1 then some b else if b = 1 then some a else none

/-- A 1-D array stretched along a broadcast axis to size `n`. -/
def vecBcast (v : Vec) (n : ℕ) : Vec :=
  if v.length = 1 then List.replicate n (v.headD 0) else v

/-- Elementwise combination of two 1-D arrays under numpy broadcasting;
`none` is numpy's broadcast `ValueError`. -/
def vecZipB (f : ℚ → ℚ → ℚ) (a b : Vec) : Option Vec :=
  match bcastDim a.length b.length with
  | some n => some (List.zipWith f (vecBcast a n) (vecBcast b n))
  | none => none

/-- A 2-D array stretched along a broadcast row axis to size `n`. -/
def matBcastRows (m : Mat) (n : ℕ) : Mat :=
  if m.length = 1 then List.replicate n (m.headD []) else m

/-- Rows combined pairwise, failing if any row pair fails to broadcast. -/
def rowsZipB (f : ℚ → ℚ → ℚ) : Mat → Mat → Option Mat
  | [], [] => some []
  | r :: rs, t :: ts =>
      match vecZipB f r t, rowsZipB f rs ts with
      | some v, some m2 => some (v :: m2)
      | _, _ => none
  | _, _ => none

/-- Elementwise combination of two 2-D arrays under numpy broadcasting. -/
def matZipB (f : ℚ → ℚ → ℚ) (a b : Mat) : Option Mat :=
  match bcastDim a.length b.length with
  | some n => rowsZipB f (matBcastRows a n) (matBcastRows b n)
  | none => none

/-- Every row of a 2-D array combined with a fixed 1-D operand, as numpy
broadcasts a 1-D array against the rows of a 2-D array. -/
def rowsMapB (f : Vec → Option Vec) : Mat → Option Mat
  | [] => some []
  | r :: rs =>
      match f r, rowsMapB f rs with
      | some v, some m2 => some (v :: m2)
      | _, _ => none

/-- Message of numpy's broadcast failure. -/
def bcastMsg : String := "operands could not be broadcast together"

/-- Numpy subtraction under broadcasting for the value shapes `predict`
subtracts; `none` stands for numpy's broadcast `ValueError`.  Shape
combinations that never occur in the program are also mapped to `none`. -/
def npSub : NpVal → NpVal → Option NpVal
  | NpVal.vec a, NpVal.vec b => (vecZipB (fun x y => x - y) a b).map NpVal.vec
  | NpVal.mat a, NpVal.mat b => (matZipB (fun x y => x - y) a b).map NpVal.mat
  | NpVal.vec a, NpVal.mat b =>
      (rowsMapB (fun r => vecZipB (fun x y => x - y) a r) b).map NpVal.mat
  | NpVal.mat a, NpVal.vec b =>
      (rowsMapB (fun r => vecZipB (fun x y => x - y) r b) a).map NpVal.mat
  | _, _ => none

/-- Numpy addition under broadcasting for the value shapes `predict` adds:
adding a 2-D array to the python list of three 2-D arrays stacks the list
into a 3-D array and broadcasts the 2-D operand against each slice, so the
row counts must agree (or one be 1) or numpy raises its broadcast
`ValueError`, modelled as `none`.  Combinations that never occur in the
program are also mapped to `none`. -/
def npAdd : NpVal → NpVal → Option NpVal
  | NpVal.vec a, NpVal.vec b => (vecZipB (fun x y => x + y) a b).map NpVal.vec
  | NpVal.mat a, NpVal.mat b => (matZipB (fun x y => x + y) a b).map NpVal.mat
  | NpVal.vec a, NpVal.mat b =>
      (rowsMapB (fun r => vecZipB (fun x y => x + y) a r) b).map NpVal.mat
  | NpVal.mat a, NpVal.vec b =>
      (rowsMapB (fun r => vecZipB (fun x y => x + y) r b) a).map NpVal.mat
  | NpVal.mat d, NpVal.triple a b c =>
      match matZipB (fun x y => x + y) d a, matZipB (fun x y => x + y) d b,
        matZipB (fun x y => x + y) d c with
      | some x2, some y2, some z2 => some (NpVal.triple x2 y2 z2)
      | _, _, _ => none
  | _, _ => none

/-- Reading `v.shape[1]`: defined for a 2-D array; a 1-D array's shape tuple
has no index 1, and a plain python list has no `shape` attribute at all. -/
def npShape1 : NpVal → Except PyErr ℕ
  | NpVal.mat m => Except.ok ((m.headD []).length)
  | NpVal.triple _ _ _ => Except.error (PyErr.attributeError ("shape"))
  | _ => Except.error (PyErr.indexError ("tuple index out of range"))

/-- The 2-D array held by a value, for positions where the program has
already established that the value is a 2-D array. -/
def npMatD : NpVal → Mat
  | NpVal.mat m => m
  | _ => []

/-- The reparameterization of `_sample_z` (lines 123-142), elementwise over
one sample: entry `j` is `mu_j + exp(log_var_j / 2) * eps_j`, with the draw
`eps` given explicitly as a function of the entry index. -/
def sampleZ (e : ℚ → ℚ) (ε : ℕ → ℚ) : ℕ → Vec → Vec → Vec
  | _, [], _ => []
  | _, _ :: _, [] => []
  | j, m :: ms, l :: ls => (m + e (l / 2) * ε j) :: sampleZ e ε (j + 1) ms ls

/-- The sampled `Z` output rows for a batch: row `i` applies `sampleZ` to the
two head outputs on input row `i`, with draw `eps i`. -/
def sampleRows (e : ℚ → ℚ) (muf lvf : Vec → Vec) (eps : ℕ → ℕ → ℚ) : ℕ → Mat → Mat
  | _, [] => []
  | i, r :: rs =>
      sampleZ e (eps i) 0 (muf r) (lvf r) :: sampleRows e muf lvf eps (i + 1) rs

/-- The encoder model of the class.  After `_create_network` (lines 160-162)
the keras model has the three outputs `[mu, log_var, z]`; after
`restore_model` (line 400) it is rebuilt with the single output `z`. -/
inductive EncModel where
  | full (mu_f lv_f : Vec → Vec)
  | zOnly (mu_f lv_f : Vec → Vec)

/-- Evaluation of `encoder_model.predict(x=data)`: a three-output keras model
returns the python list of the three output arrays, a single-output model
returns the one array.  Dropout is inactive and batch normalization uses its
learned statistics inside `predict`, which is why the two heads are plain
functions; the `Z` output still draws fresh normal samples `eps`. -/
def encPredict (em : EncModel) (e : ℚ → ℚ) (data : Mat) (eps : ℕ → ℕ → ℚ) : NpVal :=
  match em with
  | EncModel.full muf lvf =>
      NpVal.triple (data.map muf) (data.map lvf) (sampleRows e muf lvf eps 0 data)
  | EncModel.zOnly muf lvf => NpVal.mat (sampleRows e muf lvf eps 0 data)

/-- The mutable state of a `VAEArithKeras` instance that the verified
operations read: dimensions, the configured model path, the encoder model,
and the `decoder_model` attribute, which is `none` while the attribute does
not exist on the instance. -/
structure VAEState where
  x_dim : ℕ
  z_dim : ℕ
  model_to_use : String
  encoder_model : EncModel
  decoder_model : Option (Mat → Mat)

/-- Construction of the instance (`__init__`, lines 47-65, together with
`_create_network`, lines 144-164): `model_to_use` is taken from the
`model_path` argument, the encoder model has the three outputs
`[mu, log_var, z]`, and no `decoder_model` attribute is created. -/
def mkVAEArithKeras (x_dimension z_dimension : ℕ) (model_path : String)
    (mu_f lv_f : Vec → Vec) : VAEState :=
  { x_dim := x_dimension
    z_dim := z_dimension
    model_to_use := model_path
    encoder_model := EncModel.full mu_f lv_f
    decoder_model := none }

/-- Lines 190-207: `to_latent` returns `self.encoder_model.predict(x=data)`
unchanged. -/
def to_latent (s : VAEState) (e : ℚ → ℚ) (data : Mat) (eps : ℕ → ℕ → ℚ) : NpVal :=
  encPredict s.encoder_model e data eps

/-- Lines 209-226: `_avg_vector` returns
`numpy.average(self.to_latent(data), axis=0)`. -/
def _avg_vector (s : VAEState) (e : ℚ → ℚ) (data : Mat) (eps : ℕ → ℕ → ℚ) : NpVal :=
  npAverageAxis0 (to_latent s e data eps)

/-- Mean of a list of per-sample values, `K.mean` over the batch axis. -/
def listMean (l : List ℚ) : ℚ := l.sum / (l.length : ℚ)

/-- Line 183: per-sample KL term
`0.5 * K.sum(K.exp(log_var) + K.square(mu) - 1. - log_var, axis=1)`. -/
def kl_loss (e : ℚ → ℚ) (mu log_var : Mat) : List ℚ :=
  List.zipWith
    (fun m l => (1 / 2) * ((List.zipWith (fun mi li => e li + mi ^ 2 - 1 - li) m l).sum))
    mu log_var

/-- Line 184: per-sample reconstruction term
`0.5 * K.sum(tf.square(y_true - y_pred), axis=1)`. -/
def recon_loss (y_true y_pred : Mat) : List ℚ :=
  List.zipWith
    (fun a b => (1 / 2) * ((List.zipWith (fun x y => (x - y) ^ 2) a b).sum))
    y_true y_pred

/-- Lines 182-185: the training loss
`K.mean(recon_loss + 0.001 * kl_loss)`, with the per-batch `mu` and
`log_var` rows of the encoder heads passed explicitly. -/
def vae_loss (e : ℚ → ℚ) (y_true y_pred mu log_var : Mat) : ℚ :=
  listMean
    (List.zipWith (fun r k => r + (1 / 1000) * k)
      (recon_loss y_true y_pred) (kl_loss e mu log_var))

/-- Lines 228-253: `reconstruct` reads `self.decoder_model` — an attribute
that construction never creates — and calls its `predict` on `data`
unchanged; the `use_data` flag is never consulted (the branch on it is
commented out in the source).  A keras `predict` on anything other than a
single array fails. -/
def reconstruct (s : VAEState) (data : NpVal) (use_data : Bool) : Except PyErr NpVal :=
  match s.decoder_model with
  | none => Except.error (PyErr.attributeError ("decoder_model"))
  | some dec =>
    match data with
    | NpVal.mat m => Except.ok (NpVal.mat (dec m))
    | _ => Except.error (PyErr.valueError ("decoder expects a single input array"))

/-- Lines 378-416: `restore_model` reloads the persisted VAE, rebuilds
`encoder_model` with the single output of the `Z` layer, and builds and
assigns the `decoder_model` attribute, copying its weights layer by layer
from the loaded model.  The loaded weights are opaque, so the two restored
encoder heads and the restored decoder forward pass are parameters. -/
def restore_model (s : VAEState) (loaded_mu loaded_lv : Vec → Vec)
    (loaded_dec : Mat → Mat) : VAEState :=
  { s with
    encoder_model := EncModel.zOnly loaded_mu loaded_lv
    decoder_model := some loaded_dec }

/-- Annotated data matrix as the class consumes it: the numeric contents of
`.X`, whether `.X` is a scipy sparse matrix (`sparse.issparse`), whether the
`.X` object exposes the `.A` attribute (scipy sparse matrices and
`numpy.matrix` do; a plain `numpy.ndarray` does not), and the per-row
metadata records `.obs`. -/
structure AnnData where
  Xval : Mat
  Xsparse : Bool
  XhasA : Bool
  obs : List (String → String)

/-- Attribute access `adata.X.A`: the dense contents when the attribute
exists, an `AttributeError` otherwise. -/
def XA (ad : AnnData) : Except PyErr Mat :=
  if ad.XhasA then Except.ok ad.Xval else Except.error (PyErr.attributeError ("A"))

/-- Row subsetting `adata[mask]` for a predicate on the per-row metadata. -/
def adFilter (ad : AnnData) (p : (String → String) → Bool) : AnnData :=
  { Xval := ((List.zip ad.Xval ad.obs).filter (fun q => p q.2)).map (fun q => q.1)
    Xsparse := ad.Xsparse
    XhasA := ad.XhasA
    obs := ((List.zip ad.Xval ad.obs).filter (fun q => p q.2)).map (fun q => q.2) }

/-- Fancy indexing `X[ind, :]` by a list of row indices. -/
def selectRows (m : Mat) (ind : List ℕ) : Mat :=
  ind.map (fun i => m.getD i [])

/-- Values of `numpy.linspace(0, 1, n_steps)`. -/
def linspace01 (n : ℕ) : List ℚ :=
  if n ≤ 1 then (List.range n).map (fun _ => 0)
  else (List.range n).map (fun i => (i : ℚ) / ((n : ℚ) - 1))

/-- Lines 255-304: `linear_interpolation`.  Both arms of each sparsity test
evaluate the same expression `adata.X.A.mean(axis=0).reshape((1, d))`; the
encodings of the two averages are taken, `n_steps` convex combinations are
assembled into a `(n_steps, start.shape[1])` array, and the result is pushed
through `reconstruct`.  Reading `start.shape` fails on the python list that
the three-output encoder returns. -/
def linear_interpolation (s : VAEState) (e : ℚ → ℚ) (source_adata dest_adata : AnnData)
    (n_steps : ℕ) (eps1 eps2 : ℕ → ℕ → ℚ) : Except PyErr NpVal := do
  let source_average ←
    if source_adata.Xsparse then (XA source_adata).map (fun m => [colMean m])
    else (XA source_adata).map (fun m => [colMean m])
  let dest_average ←
    if dest_adata.Xsparse then (XA dest_adata).map (fun m => [colMean m])
    else (XA dest_adata).map (fun m => [colMean m])
  let start := to_latent s e source_average eps1
  let endL := to_latent s e dest_average eps2
  let w ← npShape1 start
  let vectors : Mat :=
    (linspace01 n_steps).map (fun α =>
      (matAdd (matSMul (1 - α) (npMatD start)) (matSMul α (npMatD endL))).headD
        (List.replicate w 0))
  reconstruct s (NpVal.mat vectors) true

/-- The `conditions` dictionary handed to `predict`. -/
structure Conditions where
  ctrl : String
  stim : String

/-- The `obs_key` argument of `predict`: the string `"all"` or a
single-entry dictionary `{key: values}`. -/
inductive ObsKey where
  | all
  | keyed (key : String) (values : List String)

/-- Observable steps of `predict`, recorded in order of execution. -/
inductive Ev where
  | select
  | balance
  | extract
  | downsample
  | encode
  | decode
  deriving DecidableEq

/-- Message of the error raised when both a cell type and an adata are
supplied to `predict` (line 353). -/
def cfgBothMsg : String := "Please provide either a cell type or adata not both!"

/-- Message of the error raised when neither a cell type nor an adata is
supplied to `predict` (line 355). -/
def cfgNeitherMsg : String := "Please provide a cell type name or adata for your unperturbed cells"

/-- Lines 338-351 of `predict`: selection of the control and stimulated
subsets, with balancing by the external `balancer` collaborator — always in
the `obs_key == "all"` branch, and only for more than one matched value in
the dictionary branch.  Returns the two subsets and the trace of performed
steps. -/
def predictStage (bal : AnnData → AnnData) (adata : AnnData) (conds : Conditions) :
    ObsKey → AnnData × AnnData × List Ev
  | ObsKey.all =>
      (bal (adFilter adata (fun r => r ("condition") == conds.ctrl)),
       bal (adFilter adata (fun r => r ("condition") == conds.stim)),
       [Ev.select, Ev.select, Ev.balance, Ev.balance])
  | ObsKey.keyed key values =>
      let subset := adFilter adata (fun r => values.contains (r key))
      let cx := adFilter subset (fun r => r ("condition") == conds.ctrl)
      let sx := adFilter subset (fun r => r ("condition") == conds.stim)
      if 1 < values.length then
        (bal cx, bal sx, [Ev.select, Ev.select, Ev.select, Ev.balance, Ev.balance])
      else (cx, sx, [Ev.select, Ev.select, Ev.select])

/-- Lines 306-376: `predict`.  The external collaborators `balancer` and
`extractor` are parameters (the spec's interface
`extract(dataset, label, condition_map) -> (matched, unperturbed)`; the
source keeps index `[1]`, the unperturbed subset).  The
`numpy.random.choice` draws are the explicit index lists `cd_ind` and
`stim_ind`, and the sampler draws of the three encoder invocations are
`epsC`, `epsS`, `epsP`.  The two numpy arithmetic steps (line 369 and line
374) raise numpy's broadcast `ValueError` when their operand shapes do not
broadcast, before `reconstruct` runs.  Returns the trace of steps performed
before returning or raising, and the result `(predicted_cells, delta)`. -/
def predict (s : VAEState) (e : ℚ → ℚ) (bal : AnnData → AnnData)
    (ext : AnnData → String → Conditions → AnnData × AnnData)
    (adata : AnnData) (conds : Conditions)
    (adata_to_predict : Option AnnData) (celltype_to_predict : Option String)
    (oKey : ObsKey) (cd_ind stim_ind : List ℕ) (epsC epsS epsP : ℕ → ℕ → ℚ) :
    List Ev × Except PyErr (NpVal × NpVal) :=
  let stage := predictStage bal adata conds oKey
  let ctrl_x := stage.1
  let stim_x := stage.2.1
  let tr0 := stage.2.2
  if celltype_to_predict.isSome && adata_to_predict.isSome then
    (tr0, Except.error (PyErr.exception cfgBothMsg))
  else if celltype_to_predict.isNone && adata_to_predict.isNone then
    (tr0, Except.error (PyErr.exception cfgNeitherMsg))
  else
    let stagedCt :=
      match celltype_to_predict with
      | some ct => ((ext adata ct conds).2, tr0 ++ [Ev.extract])
      | none => (adata_to_predict.getD ⟨[], false, false, []⟩, tr0)
    let ctrl_pred := stagedCt.1
    let tr1 := stagedCt.2
    -- line 360: `eq = min(...)`; the draws cd_ind and stim_ind have length eqn
    -- and distinct in-range entries whenever they model numpy.random.choice.
    let _eqn := min ctrl_x.Xval.length stim_x.Xval.length
    let ctrlRows :=
      if ctrl_x.Xsparse && stim_x.Xsparse then selectRows ctrl_x.Xval cd_ind
      else selectRows ctrl_x.Xval cd_ind
    let stimRows :=
      if ctrl_x.Xsparse && stim_x.Xsparse then selectRows stim_x.Xval stim_ind
      else selectRows stim_x.Xval stim_ind
    let latent_ctrl := _avg_vector s e ctrlRows epsC
    let latent_sim := _avg_vector s e stimRows epsS
    let tr2 := tr1 ++ [Ev.downsample, Ev.downsample, Ev.encode, Ev.encode]
    match npSub latent_sim latent_ctrl with
    | none => (tr2, Except.error (PyErr.valueError bcastMsg))
    | some delta =>
      let latent_cd :=
        if ctrl_pred.Xsparse then to_latent s e ctrl_pred.Xval epsP
        else to_latent s e ctrl_pred.Xval epsP
      match npAdd delta latent_cd with
      | none => (tr2 ++ [Ev.encode], Except.error (PyErr.valueError bcastMsg))
      | some stim_pred =>
        (tr2 ++ [Ev.encode, Ev.decode],
         (reconstruct s stim_pred true).map (fun cells => (cells, delta)))

/-- Observable steps of `train`, recorded in order of execution. -/
inductive TrEv where
  | trainingStart
  | restoreSaved
  | shuffleData
  | epochShuffle (i : ℕ)
  | epochFit (i : ℕ)
  | saveModel (path : String)
  deriving DecidableEq

/-- Per-epoch behaviour of the `keras` fitting collaborator
(`self.vae_model.fit(..., shuffle=shuffle, ...)`, lines 487-503): under its
documented contract, when its `shuffle` flag is true the training data is
permuted again before every epoch.  `epochs` is the number of epochs the
collaborator actually runs (equal to `n_epochs`, or fewer under its early
stopping callback). -/
def fitTrace (shuffle : Bool) : ℕ → List TrEv
  | 0 => []
  | n + 1 =>
      fitTrace shuffle n ++
        (if shuffle then [TrEv.epochShuffle n, TrEv.epochFit n] else [TrEv.epochFit n])

/-- Behaviour of `os.path.join` applied to a single component (lines
504-505): the path is returned unchanged, so no directory is prepended. -/
def osPathJoin (p : String) : String := p

/-- Lines 418-506: `train`.  The external `shuffle_data` collaborator and
the weight update computed by the fitting collaborator are parameters
(`shData`, `fitF`); `epochs` is the number of epochs the fit actually runs.
The validation check precedes the one-time shuffle and the fit; on
completion the two artifacts are saved to `os.path.join("vae.h5")` and
`os.path.join("encoder.h5")`. -/
def train (s : VAEState) (shData : AnnData → AnnData) (fitF : EncModel → EncModel)
    (train_data : AnnData) (use_validation : Bool) (valid_data : Option AnnData)
    (epochs : ℕ) (initial_run : Bool) (shuffle : Bool) :
    List TrEv × Except PyErr VAEState :=
  let tr0 := if initial_run then [TrEv.trainingStart] else [TrEv.restoreSaved]
  if use_validation && valid_data.isNone then
    (tr0, Except.error (PyErr.exception ("valid_data is None but use_validation is True.")))
  else
    let _shuffled := if shuffle then shData train_data else train_data
    let tr1 := tr0 ++ (if shuffle then [TrEv.shuffleData] else []) ++ fitTrace shuffle epochs
    (tr1 ++ [TrEv.saveModel (osPathJoin ("vae.h5")), TrEv.saveModel (osPathJoin ("encoder.h5"))],
     Except.ok { s with encoder_model := fitF s.encoder_model })

/-- Whether a fallible step succeeded. -/
def exOk {α : Type} : Except PyErr α → Bool
  | Except.ok _ => true
  | Except.error _ => false

/-- Paths of the artifacts persisted during a training trace. -/
def savedPaths (l : List TrEv) : List String :=
  l.filterMap (fun ev => match ev with | TrEv.saveModel p => some p | _ => none)

/-- Whether a training step permutes the training data. -/
def isShuffleEv : TrEv → Bool
  | TrEv.shuffleData => true
  | TrEv.epochShuffle _ => true
  | _ => false

/-- Number of permutations of the training data in a training trace. -/
def shuffleEvCount (l : List TrEv) : ℕ := (l.filter isShuffleEv).length

/-- A `predict` outcome that is one of the two configuration errors of
lines 352-355. -/
def IsCfgErr (r : Except PyErr (NpVal × NpVal)) : Prop :=
  r = Except.error (PyErr.exception cfgBothMsg) ∨
  r = Except.error (PyErr.exception cfgNeitherMsg)

/-- Membership in a `zipWith` comes from members of the two lists. -/
lemma mem_zipWith_cases {α β γ : Type} (f : α → β → γ) :
    ∀ (l1 : List α) (l2 : List β) (c : γ), c ∈ List.zipWith f l1 l2 →
      ∃ a b, a ∈ l1 ∧ b ∈ l2 ∧ c = f a b := by
  intro l1
  induction l1 with
  | nil => intro l2 c h; simp at h
  | cons a as ih =>
    intro l2 c h
    cases l2 with
    | nil => simp at h
    | cons b bs =>
      rw [List.zipWith_cons_cons] at h
      rcases List.mem_cons.mp h with h1 | h2
      · exact ⟨a, b, List.mem_cons_self a as, List.mem_cons_self b bs, h1⟩
      · rcases ih bs c h2 with ⟨p, q, hp, hq, hc⟩
        exact ⟨p, q, List.mem_cons_of_mem a hp, List.mem_cons_of_mem b hq, hc⟩

/-- Mapping a function over a fallible result preserves which error it is. -/
lemma exceptMap_error_iff {α β : Type} (f : α → β) (r : Except PyErr α) (err : PyErr) :
    r.map f = Except.error err ↔ r = Except.error err := by
  cases r <;> simp [Except.map]

/-- Sequencing after a failed step propagates the failure. -/
lemma exceptBind_error {α β : Type} (err : PyErr) (f : α → Except PyErr β) :
    (Except.error err >>= f : Except PyErr β) = Except.error err := rfl

/-- Sequencing after a successful step continues with its value. -/
lemma exceptBind_ok {α β : Type} (a : α) (f : α → Except PyErr β) :
    (Except.ok a >>= f : Except PyErr β) = f a := rfl

/-- The only errors `reconstruct` can raise are an `AttributeError` or a
`ValueError`, never a generic `Exception`. -/
lemma reconstruct_not_exception (s : VAEState) (v : NpVal) (u : Bool) (m : String) :
    reconstruct s v u ≠ Except.error (PyErr.exception m) := by
  cases h : s.decoder_model <;> cases v <;> simp [reconstruct, h]

/-- Claim C1, counterexample.  On a freshly constructed model with `x_dim =
z_dim = 1`, zero-valued encoder heads, and `exp` evaluating to `1`,
`to_latent` of the batch `[[0]]` changes when the sampler draw changes from
`0` to `1`: the stochastic sampler is not bypassed and the result is not the
deterministic mean. -/
theorem C1_counterexample :
    to_latent (mkVAEArithKeras 1 1 ("m") (fun _ => [0]) (fun _ => [0]))
        (fun _ => 1) [[0]] (fun _ _ => 0)
      ≠ to_latent (mkVAEArithKeras 1 1 ("m") (fun _ => [0]) (fun _ => [0]))
        (fun _ => 1) [[0]] (fun _ _ => 1) := by
  norm_num [to_latent, mkVAEArithKeras, encPredict, sampleRows, sampleZ]

/-- Claim C1, amended.  For every batch, `to_latent` on a freshly
constructed model returns the full three-output encoder prediction: the list
`[mean, log_var, z]`, whose first component is the `[n, z_dim]` matrix of
Gaussian means and whose third component is the reparameterized sample —
the sampler is not bypassed, and the result varies with the draw. -/
theorem C1_amended (muf lvf : Vec → Vec) (e : ℚ → ℚ) (mp : String) (x z : ℕ)
    (data : Mat) (eps : ℕ → ℕ → ℚ) (hmu : ∀ v, (muf v).length = z) :
    to_latent (mkVAEArithKeras x z mp muf lvf) e data eps
      = NpVal.triple (data.map muf) (data.map lvf) (sampleRows e muf lvf eps 0 data) ∧
    (data.map muf).length = data.length ∧ (∀ r ∈ data.map muf, r.length = z) := by
  refine ⟨rfl, List.length_map data muf, ?_⟩
  intro r hr
  rcases List.mem_map.mp hr with ⟨a, _, rfl⟩
  exact hmu a

/-- Witness for C1_amended at a concrete model and batch. -/
theorem C1_amended_witness :
    (∀ v : Vec, ((fun _ : Vec => [(0 : ℚ)]) v).length = 1) ∧
    (to_latent (mkVAEArithKeras 1 1 ("m") (fun _ => [(0 : ℚ)]) (fun _ => [0]))
        (fun _ => 1) [[0]] (fun _ _ => 1)
      = NpVal.triple ([[(0 : ℚ)]].map (fun _ => [(0 : ℚ)])) ([[(0 : ℚ)]].map (fun _ => [0]))
          (sampleRows (fun _ => 1) (fun _ => [(0 : ℚ)]) (fun _ => [0]) (fun _ _ => 1) 0 [[0]]) ∧
    ([[(0 : ℚ)]].map (fun _ : Vec => [(0 : ℚ)])).length = [[(0 : ℚ)]].length ∧
    (∀ r ∈ [[(0 : ℚ)]].map (fun _ : Vec => [(0 : ℚ)]), r.length = 1)) :=
  ⟨fun _ => rfl,
   C1_amended (fun _ => [0]) (fun _ => [0]) (fun _ => 1) ("m") 1 1 [[0]] (fun _ _ => 1)
     (fun _ => rfl)⟩

/-- Claim C2, evaluation of the code at the failing input.  On a freshly
constructed model with `z_dim = 1`, heads `mu = first entry` and
`log_var = 0`, `exp` evaluating to `1` and zero draws, `_avg_vector` of the
two-sample batch `[[1], [3]]` is the two-row matrix `[[2/3], [2]]` — the
elementwise average of the three encoder outputs per sample — and not the
single latent vector `[2]` that averaging the encoded means across the two
samples would give. -/
theorem C2_code_evaluation :
    _avg_vector
        (mkVAEArithKeras 1 1 ("m") (fun r => [r.headD 0]) (fun _ => [0]))
        (fun _ => 1) [[1], [3]] (fun _ _ => 0)
      = NpVal.mat [[2/3], [2]] ∧
    NpVal.mat [[(2 : ℚ)/3], [2]] ≠ NpVal.vec [2] := by
  constructor
  · norm_num [_avg_vector, to_latent, mkVAEArithKeras, encPredict, sampleRows,
      sampleZ, npAverageAxis0, matSMul, matAdd, matZip, List.zipWith]
  · simp

/-- Claim C9.  The result of `reconstruct` is independent of its `use_data`
argument: the flag is never consulted, the input is always handed to the
decoder as if it were latent-space data. -/
theorem C9_use_data (s : VAEState) (data : NpVal) :
    reconstruct s data true = reconstruct s data false := rfl

/-- Claim C10.  In `linear_interpolation` the sparse and dense branches of
each mean computation are the same expression on `.X.A`, so the sparsity
flags of both inputs have no effect on the result; and an input whose `.X`
lacks the `.A` attribute makes both branches fail with the same
`AttributeError`, on the source as well as on the destination side. -/
theorem C10_sparse_branches (s : VAEState) (e : ℚ → ℚ) (v w : Mat)
    (bs bs2 bd bd2 : Bool) (hA hB : Bool) (obsS obsD : List (String → String))
    (n : ℕ) (e1 e2 : ℕ → ℕ → ℚ) :
    linear_interpolation s e ⟨v, bs, hA, obsS⟩ ⟨w, bd, hB, obsD⟩ n e1 e2
      = linear_interpolation s e ⟨v, bs2, hA, obsS⟩ ⟨w, bd2, hB, obsD⟩ n e1 e2 ∧
    linear_interpolation s e ⟨v, bs, false, obsS⟩ ⟨w, bd, hB, obsD⟩ n e1 e2
      = Except.error (PyErr.attributeError ("A")) ∧
    linear_interpolation s e ⟨v, bs, true, obsS⟩ ⟨w, bd, false, obsD⟩ n e1 e2
      = Except.error (PyErr.attributeError ("A")) := by
  refine ⟨?_, ?_, ?_⟩
  · simp [linear_interpolation, XA]
  · simp [linear_interpolation, XA, Except.map, exceptBind_error, exceptBind_ok]
  · simp [linear_interpolation, XA, Except.map, exceptBind_error, exceptBind_ok]

/-- Claim C4, evaluation of the code at the failing input.  A completed
training run on an instance constructed with the default model path
`../models/scgen` persists exactly the two artifacts `vae.h5` and
`encoder.h5`, as bare working-directory paths: neither lies under the
configured `model_to_use` path. -/
theorem C4_code_evaluation :
    (train (mkVAEArithKeras 7 3 ("../models/scgen") (fun _ => []) (fun _ => []))
        id id ⟨[], false, false, []⟩ false none 1 true false).1
      = [TrEv.trainingStart, TrEv.epochFit 0, TrEv.saveModel ("vae.h5"),
         TrEv.saveModel ("encoder.h5")] ∧
    savedPaths
      (train (mkVAEArithKeras 7 3 ("../models/scgen") (fun _ => []) (fun _ => []))
        id id ⟨[], false, false, []⟩ false none 1 true false).1
      = ["vae.h5", "encoder.h5"] ∧
    exOk
      (train (mkVAEArithKeras 7 3 ("../models/scgen") (fun _ => []) (fun _ => []))
        id id ⟨[], false, false, []⟩ false none 1 true false).2 = true ∧
    (mkVAEArithKeras 7 3 ("../models/scgen") (fun _ => []) (fun _ => [])).model_to_use
      = "../models/scgen" ∧
    ("vae.h5").startsWith ("../models/scgen") = false ∧
    ("encoder.h5").startsWith ("../models/scgen") = false := by
  refine ⟨?_, ?_, ?_, rfl, ?_, ?_⟩
  · simp [train, fitTrace, osPathJoin]
  · simp [train, fitTrace, osPathJoin, savedPaths]
  · simp [train, exOk]
  · decide
  · decide

/-- A training run of `n` epochs with the shuffle flag forwarded to the
fitting collaborator permutes the data once more before every epoch. -/
lemma shuffleEvCount_fitTrace (n : ℕ) : shuffleEvCount (fitTrace true n) = n := by
  induction n with
  | zero => rfl
  | succ k ih =>
      simp [fitTrace, shuffleEvCount, List.filter_append, isShuffleEv] at ih ⊢
      omega

/-- Claim C5, counterexample.  A two-epoch training run with shuffling
enabled permutes the training set three times — once by `shuffle_data`
before fitting, and once more before each of the two epochs by the fitting
collaborator, to which the same `shuffle` flag is forwarded — refuting
"permuted exactly once, with no reshuffling between epochs". -/
theorem C5_counterexample :
    (train (mkVAEArithKeras 1 1 ("m") (fun _ => []) (fun _ => []))
        id id ⟨[], false, false, []⟩ false none 2 true true).1
      = [TrEv.trainingStart, TrEv.shuffleData, TrEv.epochShuffle 0, TrEv.epochFit 0,
         TrEv.epochShuffle 1, TrEv.epochFit 1, TrEv.saveModel ("vae.h5"),
         TrEv.saveModel ("encoder.h5")] ∧
    shuffleEvCount
      (train (mkVAEArithKeras 1 1 ("m") (fun _ => []) (fun _ => []))
        id id ⟨[], false, false, []⟩ false none 2 true true).1 = 3 ∧
    (3 : ℕ) ≠ 1 := by
  refine ⟨?_, ?_, by omega⟩
  · simp [train, fitTrace, osPathJoin]
  · simp [train, fitTrace, osPathJoin, shuffleEvCount, isShuffleEv, List.filter_append]

/-- Claim C5, amended.  When shuffling is enabled, `shuffle_data` permutes
the training set exactly once before fitting begins, but the same flag is
forwarded to the fitting collaborator, which permutes the data once more
before every epoch it runs — so reshuffling does occur between epochs. -/
theorem C5_amended (s : VAEState) (sh : AnnData → AnnData) (f : EncModel → EncModel)
    (ad : AnnData) (epochs : ℕ) (ir : Bool) :
    (train s sh f ad false none epochs ir true).1
      = (if ir then [TrEv.trainingStart] else [TrEv.restoreSaved]) ++ [TrEv.shuffleData]
        ++ fitTrace true epochs
        ++ [TrEv.saveModel ("vae.h5"), TrEv.saveModel ("encoder.h5")] ∧
    shuffleEvCount
      ((if ir then [TrEv.trainingStart] else [TrEv.restoreSaved]) ++ [TrEv.shuffleData]) = 1 ∧
    shuffleEvCount (fitTrace true epochs) = epochs := by
  refine ⟨?_, ?_, shuffleEvCount_fitTrace epochs⟩
  · simp [train, osPathJoin]
  · cases ir <;> rfl

/-- Claim C6.  For every batch, the training loss is the batch mean of the
per-sample value `recon + 0.001 * kl`, with `recon` half the sum over
features of squared reconstruction differences and `kl` half the sum over
latent dimensions of `exp(log_var) + mean^2 - 1 - log_var`; and whenever
every entry of `mean` and of `log_var` is `0` (and `exp 0 = 1`), every
per-sample KL term is exactly `0`. -/
theorem C6_loss (e : ℚ → ℚ) (y_true y_pred mu log_var : Mat) :
    vae_loss e y_true y_pred mu log_var
      = listMean (List.zipWith (fun r k => r + (1 / 1000) * k)
          (List.zipWith
            (fun a b => (1 / 2) * ((List.zipWith (fun x y => (x - y) ^ 2) a b).sum))
            y_true y_pred)
          (List.zipWith
            (fun m l => (1 / 2) * ((List.zipWith (fun mi li => e li + mi ^ 2 - 1 - li) m l).sum))
            mu log_var)) ∧
    (e 0 = 1 → (∀ r ∈ mu, ∀ q ∈ r, q = 0) → (∀ r ∈ log_var, ∀ q ∈ r, q = 0) →
      ∀ k ∈ kl_loss e mu log_var, k = 0) := by
  refine ⟨rfl, ?_⟩
  intro he hmu hlv k hk
  rcases mem_zipWith_cases _ _ _ _ hk with ⟨m, l, hm, hl, rfl⟩
  have hz : ∀ q ∈ List.zipWith (fun mi li => e li + mi ^ 2 - 1 - li) m l, q = 0 := by
    intro q hq
    rcases mem_zipWith_cases _ _ _ _ hq with ⟨mi, li, hmi, hli, rfl⟩
    rw [hmu m hm mi hmi, hlv l hl li hli, he]
    ring
  simp [List.sum_eq_zero hz]

/-- Witness for C6_loss at a concrete batch with zero mean and log-variance. -/
theorem C6_loss_witness :
    ((fun _ : ℚ => (1 : ℚ)) 0 = 1) ∧
    (∀ k ∈ kl_loss (fun _ => (1 : ℚ)) [[0]] [[0]], k = 0) :=
  ⟨rfl,
   (C6_loss (fun _ => 1) [[3]] [[1]] [[0]] [[0]]).2 rfl
     (by intro r hr q hq; simp at hr; subst hr; simpa using hq)
     (by intro r hr q hq; simp at hr; subst hr; simpa using hq)⟩

/-- Claim C7.  `train` fails if and only if validation was requested while
`valid_data` is `None`, and in that case it raises before shuffling,
fitting, or saving anything: the trace holds only the initial-run step. -/
theorem C7_validation (s : VAEState) (sh : AnnData → AnnData) (f : EncModel → EncModel)
    (ad : AnnData) (vd : Option AnnData) (uv ir shf : Bool) (epochs : ℕ) :
    (exOk (train s sh f ad uv vd epochs ir shf).2 = false ↔ uv = true ∧ vd = none) ∧
    train s sh f ad true none epochs ir shf
      = ((if ir then [TrEv.trainingStart] else [TrEv.restoreSaved]),
         Except.error (PyErr.exception ("valid_data is None but use_validation is True."))) := by
  constructor
  · cases uv <;> cases vd <;> simp [train, exOk]
  · simp [train]

/-- Witness for C7_validation: requesting validation without validation data
on a concrete instance raises the configuration error with an empty
training trace. -/
theorem C7_validation_witness :
    train (mkVAEArithKeras 1 1 ("m") (fun _ => []) (fun _ => []))
        id id ⟨[], false, false, []⟩ true none 1 true true
      = ([TrEv.trainingStart],
         Except.error (PyErr.exception ("valid_data is None but use_validation is True."))) := by
  have h := (C7_validation (mkVAEArithKeras 1 1 ("m") (fun _ => []) (fun _ => []))
    id id ⟨[], false, false, []⟩ none true true true 1).2
  simpa using h

/-- Claim C3, counterexample.  With both `celltype_to_predict` and
`adata_to_predict` supplied, `predict` does raise the configuration error,
but only after the control and stimulated subsets have been selected and
balanced: the trace preceding the raise already holds two selection and two
balancing steps, so the error is not raised before any computation on the
dataset. -/
theorem C3_counterexample :
    predict (mkVAEArithKeras 1 1 ("m") (fun _ => [0]) (fun _ => [0])) (fun _ => 1)
        (fun a => a) (fun a _ _ => (a, a))
        ⟨[[1]], false, false, [fun _ => "control"]⟩ ⟨"control", "stimulated"⟩
        (some ⟨[[1]], false, false, [fun _ => "control"]⟩) (some ("CD4T")) ObsKey.all
        [] [] (fun _ _ => 0) (fun _ _ => 0) (fun _ _ => 0)
      = ([Ev.select, Ev.select, Ev.balance, Ev.balance],
         Except.error (PyErr.exception cfgBothMsg)) ∧
    Ev.balance ∈ [Ev.select, Ev.select, Ev.balance, Ev.balance] := by
  constructor
  · rfl
  · simp

/-- Claim C3, amended.  `predict` raises a configuration error if and only
if both of `celltype_to_predict` and `adata_to_predict` are supplied or
neither is; the error is raised after the subset-selection and balancing
stage — whose steps are exactly selections and balancings — and before any
downsampling, encoding, or decoding, the raising trace being precisely the
trace of that stage. -/
theorem C3_amended (s : VAEState) (e : ℚ → ℚ) (bal : AnnData → AnnData)
    (ext : AnnData → String → Conditions → AnnData × AnnData) (adata : AnnData)
    (conds : Conditions) (atp : Option AnnData) (ctp : Option String) (oKey : ObsKey)
    (ci si : List ℕ) (eC eS eP : ℕ → ℕ → ℚ) :
    (IsCfgErr (predict s e bal ext adata conds atp ctp oKey ci si eC eS eP).2
      ↔ ((ctp.isSome = true ∧ atp.isSome = true) ∨ (ctp = none ∧ atp = none))) ∧
    (∀ ev ∈ (predictStage bal adata conds oKey).2.2, ev = Ev.select ∨ ev = Ev.balance) ∧
    (((ctp.isSome = true ∧ atp.isSome = true) ∨ (ctp = none ∧ atp = none)) →
      (predict s e bal ext adata conds atp ctp oKey ci si eC eS eP).1
        = (predictStage bal adata conds oKey).2.2) := by
  refine ⟨?_, ?_, ?_⟩
  · rcases ctp with _ | ct <;> rcases atp with _ | a2
    · simp [predict, IsCfgErr]
    · simp [predict, IsCfgErr]
      constructor <;> intro hcfg <;>
          (split at hcfg <;> try split at hcfg) <;>
        simp_all [exceptMap_error_iff, reconstruct_not_exception]
    · simp [predict, IsCfgErr]
      constructor <;> intro hcfg <;>
          (split at hcfg <;> try split at hcfg) <;>
        simp_all [exceptMap_error_iff, reconstruct_not_exception]
    · simp [predict, IsCfgErr]
  · rcases oKey with _ | ⟨k, vs⟩
    · intro ev h
      simp [predictStage] at h
      rcases h with h | h <;> simp [h]
    · intro ev h
      by_cases h1 : 1 < vs.length
      · simp [predictStage, h1] at h
        rcases h with h | h <;> simp [h]
      · simp [predictStage, h1] at h
        simp [h]
  · intro h
    rcases ctp with _ | ct <;> rcases atp with _ | a2
    · simp [predict]
    · simp at h
    · simp at h
    · simp [predict]

/-- Witness for C3_amended: supplying both a cell type and an adata on a
concrete instance yields a configuration error. -/
theorem C3_amended_witness :
    IsCfgErr (predict (mkVAEArithKeras 1 1 ("m") (fun _ => [0]) (fun _ => [0])) (fun _ => 1)
        (fun a => a) (fun a _ _ => (a, a)) ⟨[], false, false, []⟩ ⟨"control", "stimulated"⟩
        (some ⟨[], false, false, []⟩) (some ("CD4T")) ObsKey.all [] []
        (fun _ _ => 0) (fun _ _ => 0) (fun _ _ => 0)).2 :=
  ((C3_amended (mkVAEArithKeras 1 1 ("m") (fun _ => [0]) (fun _ => [0])) (fun _ => 1)
      (fun a => a) (fun a _ _ => (a, a)) ⟨[], false, false, []⟩ ⟨"control", "stimulated"⟩
      (some ⟨[], false, false, []⟩) (some ("CD4T")) ObsKey.all [] []
      (fun _ _ => 0) (fun _ _ => 0) (fun _ _ => 0)).1).mpr (Or.inl ⟨rfl, rfl⟩)

/-- Claim C8, counterexample.  On a freshly constructed (non-restored)
instance, a `predict` call with exactly one target argument supplied fails
with numpy's broadcast `ValueError`, not with an `AttributeError`: the
downsampled control/stimulated subsets have 2 rows while the supplied
target dataset has 3, so `delta + latent_cd` raises at line 374, before
`reconstruct` is reached. -/
theorem C8_counterexample :
    (predict (mkVAEArithKeras 1 1 ("m") (fun _ => [0]) (fun _ => [0])) (fun _ => 1)
        (fun a => a) (fun a _ _ => (a, a))
        ⟨[[1], [2], [3], [4]], false, false,
         [fun _ => "control", fun _ => "control", fun _ => "stimulated",
          fun _ => "stimulated"]⟩
        ⟨"control", "stimulated"⟩
        (some ⟨[[9], [9], [9]], false, false,
          [fun _ => "control", fun _ => "control", fun _ => "control"]⟩)
        none ObsKey.all [0, 1] [0, 1] (fun _ _ => 0) (fun _ _ => 0) (fun _ _ => 0)).2
      = Except.error (PyErr.valueError bcastMsg) := by
  norm_num +decide [predict, predictStage, adFilter, _avg_vector, to_latent,
    mkVAEArithKeras, encPredict, sampleRows, sampleZ, npAverageAxis0, matSMul,
    matAdd, matZip, npSub, npAdd, matZipB, rowsZipB, vecZipB, vecBcast,
    matBcastRows, bcastDim, selectRows, List.zipWith]

/-- Claim C8, amended.  The `decoder_model` attribute is `none` after
construction, is left unchanged by `train`, and is assigned only by
`restore_model`; on a state on which `restore_model` has not run,
`reconstruct` always fails with the `decoder_model` `AttributeError` and
`linear_interpolation` fails with an `AttributeError`; `predict` with
exactly one of the two target arguments supplied (in either direction)
never returns reconstructed vectors — it fails with the `decoder_model`
`AttributeError` whenever the two numpy arithmetic steps broadcast
successfully, and with numpy's broadcast `ValueError` otherwise. -/
theorem C8_decoder (x z : ℕ) (mp : String) (muf lvf lm ll : Vec → Vec) (ld : Mat → Mat)
    (sh : AnnData → AnnData) (fitF : EncModel → EncModel) (td : AnnData)
    (vd : Option AnnData) (uv ir shf : Bool) (epochs : ℕ)
    (s s2 : VAEState) (d : NpVal) (u : Bool) (e : ℚ → ℚ)
    (src dst : AnnData) (n : ℕ) (e1 e2 : ℕ → ℕ → ℚ)
    (bal : AnnData → AnnData) (ext : AnnData → String → Conditions → AnnData × AnnData)
    (adata ad2 : AnnData) (conds : Conditions) (ct : String) (oKey : ObsKey)
    (ci si : List ℕ) (eC eS eP : ℕ → ℕ → ℚ)
    (hs : (train s sh fitF td uv vd epochs ir shf).2 = Except.ok s2)
    (hd : s.decoder_model = none) (henc : s.encoder_model = EncModel.full muf lvf) :
    (mkVAEArithKeras x z mp muf lvf).decoder_model = none ∧
    (restore_model s lm ll ld).decoder_model = some ld ∧
    s2.decoder_model = s.decoder_model ∧
    reconstruct s d u = Except.error (PyErr.attributeError ("decoder_model")) ∧
    (∃ a, linear_interpolation s e src dst n e1 e2
        = Except.error (PyErr.attributeError a)) ∧
    ((predict s e bal ext adata conds none (some ct) oKey ci si eC eS eP).2
        = Except.error (PyErr.attributeError ("decoder_model")) ∨
      (predict s e bal ext adata conds none (some ct) oKey ci si eC eS eP).2
        = Except.error (PyErr.valueError bcastMsg)) ∧
    ((predict s e bal ext adata conds (some ad2) none oKey ci si eC eS eP).2
        = Except.error (PyErr.attributeError ("decoder_model")) ∨
      (predict s e bal ext adata conds (some ad2) none oKey ci si eC eS eP).2
        = Except.error (PyErr.valueError bcastMsg)) ∧
    (∀ dlt sp,
      npSub (_avg_vector s e (selectRows ((predictStage bal adata conds oKey).2.1).Xval si) eS)
          (_avg_vector s e (selectRows ((predictStage bal adata conds oKey).1).Xval ci) eC)
        = some dlt →
      npAdd dlt (to_latent s e ((ext adata ct conds).2).Xval eP) = some sp →
      (predict s e bal ext adata conds none (some ct) oKey ci si eC eS eP).2
        = Except.error (PyErr.attributeError ("decoder_model"))) ∧
    (∀ dlt sp,
      npSub (_avg_vector s e (selectRows ((predictStage bal adata conds oKey).2.1).Xval si) eS)
          (_avg_vector s e (selectRows ((predictStage bal adata conds oKey).1).Xval ci) eC)
        = some dlt →
      npAdd dlt (to_latent s e ad2.Xval eP) = some sp →
      (predict s e bal ext adata conds (some ad2) none oKey ci si eC eS eP).2
        = Except.error (PyErr.attributeError ("decoder_model"))) := by
  refine ⟨rfl, rfl, ?_, ?_, ?_, ?_, ?_, ?_, ?_⟩
  · by_cases hvc : (uv && vd.isNone) = true
    · simp [train, hvc] at hs
    · simp [train, hvc] at hs
      rw [← hs]
  · simp [reconstruct, hd]
  · by_cases h1 : src.XhasA = true
    · by_cases h2 : dst.XhasA = true
      · exact ⟨"shape", by
          simp [linear_interpolation, XA, h1, h2, to_latent, henc, encPredict,
            npShape1, Except.map, exceptBind_error, exceptBind_ok]⟩
      · exact ⟨"A", by
          simp [linear_interpolation, XA, h1, h2, Except.map, exceptBind_error,
            exceptBind_ok]⟩
    · exact ⟨"A", by
        simp [linear_interpolation, XA, h1, Except.map, exceptBind_error,
          exceptBind_ok]⟩
  · simp [predict, reconstruct, hd, Except.map]
    split
    · simp
    · split <;> simp
  · simp [predict, reconstruct, hd, Except.map]
    split
    · simp
    · split <;> simp
  · intro dlt sp h1 h2
    simp [predict, h1, h2, reconstruct, hd, Except.map]
  · intro dlt sp h1 h2
    simp [predict, h1, h2, reconstruct, hd, Except.map]

/-- Witness for C8_decoder at a concrete freshly constructed instance,
exercising the aligned-shape case of the predict conjunct. -/
theorem C8_decoder_witness :
    reconstruct (mkVAEArithKeras 1 1 ("m") (fun _ => [(0 : ℚ)]) (fun _ => [0]))
        (NpVal.mat [[0]]) true
      = Except.error (PyErr.attributeError ("decoder_model")) ∧
    (predict (mkVAEArithKeras 1 1 ("m") (fun _ => [(0 : ℚ)]) (fun _ => [0])) (fun _ => 1)
        (fun a => a) (fun a _ _ => (a, a)) ⟨[], false, false, []⟩ ⟨"control", "stimulated"⟩
        (some ⟨[], false, false, []⟩) none ObsKey.all [] []
        (fun _ _ => 0) (fun _ _ => 0) (fun _ _ => 0)).2
      = Except.error (PyErr.attributeError ("decoder_model")) := by
  have h := C8_decoder 1 1 ("m") (fun _ => [(0 : ℚ)]) (fun _ => [0]) (fun _ => [(0 : ℚ)])
    (fun _ => [0]) (fun m => m) id id ⟨[], false, false, []⟩ none false true false 1
    (mkVAEArithKeras 1 1 ("m") (fun _ => [(0 : ℚ)]) (fun _ => [0]))
    (mkVAEArithKeras 1 1 ("m") (fun _ => [(0 : ℚ)]) (fun _ => [0]))
    (NpVal.mat [[0]]) true (fun _ => 1)
    ⟨[], false, false, []⟩ ⟨[], false, false, []⟩ 2 (fun _ _ => 0) (fun _ _ => 0)
    (fun a => a) (fun a _ _ => (a, a)) ⟨[], false, false, []⟩ ⟨[], false, false, []⟩
    ⟨"control", "stimulated"⟩ ("CD4T") ObsKey.all [] []
    (fun _ _ => 0) (fun _ _ => 0) (fun _ _ => 0) rfl rfl rfl
  refine ⟨h.2.2.2.1, ?_⟩
  exact h.2.2.2.2.2.2.2.2 (NpVal.mat []) (NpVal.triple [] [] [])
    (by norm_num [npSub, matZipB, rowsZipB, matBcastRows, bcastDim, _avg_vector,
      to_latent, mkVAEArithKeras, encPredict, sampleRows, npAverageAxis0, matSMul,
      matAdd, matZip, selectRows, predictStage, adFilter])
    (by norm_num [npAdd, matZipB, rowsZipB, matBcastRows, bcastDim, to_latent,
      mkVAEArithKeras, encPredict, sampleRows])
